import Mathlib

/-!
Verification development for the geofence evaluation engine of
`src/api/function_app.py` (gps-tracking-app).

The Python module is shallowly embedded:

* JSON payloads (the values produced by `json.loads`) are the inductive
  type `Json`; numbers are modelled as rationals.
* Python exceptions are modelled with `Except Unit`: `Except.error ()`
  stands for "an exception was raised here", `Except.ok v` for normal
  completion with value `v`.  A Python function that can fall off the end
  of its body (implicitly returning `None`) is given an `Option` result,
  `none` standing for Python's `None`.
* The shapely library (`Point`, `Polygon`, `contains`, `distance`) is
  external to the repository; it is abstracted as a `GeoBackend`: a
  containment predicate and a distance-to-boundary function on the parsed
  ring, with the library guarantee that distances are non-negative.
* Azure blob storage and SendGrid are external I/O; their outcomes enter
  as explicit parameters (`Except Unit Json` for the downloaded boundary
  blob, `AlertEnv` for the mail configuration and the send outcome).
-/

/-- JSON values as produced by Python's `json.loads`.  Objects keep an
association list of fields (lookup is by first occurrence; `json.loads`
never produces duplicate keys). -/
inductive Json where
  | null : Json
  | bool : Bool → Json
  | num : ℚ → Json
  | str : String → Json
  | arr : List Json → Json
  | obj : List (String × Json) → Json

/-- Python equality test of a JSON value against a string literal
(`x == 'Polygon'`): true exactly when `x` is that very string. -/
def Json.isStr : Json → String → Bool
  | Json.str t, s => t = s
  | _, _ => false

/-- Python identity/equality test against `None` (`x is None`, or the
membership test `None in (...)`): true exactly on `null`. -/
def Json.isNull : Json → Bool
  | Json.null => true
  | _ => false

/-- Python subscription `d[key]` on a JSON value: a `KeyError` on a
missing key, a `TypeError` when `d` is not a dict.  (Subscripting a
string by a string also raises `TypeError`.) -/
def Json.getKey : Json → String → Except Unit Json
  | Json.obj fields, k =>
    match fields.lookup k with
    | some v => Except.ok v
    | none => Except.error ()
  | _, _ => Except.error ()

/-- Python `d.get(key)` on a JSON value: `None` on a missing key,
`AttributeError` when `d` is not a dict. -/
def Json.pyGet : Json → String → Except Unit Json
  | Json.obj fields, k => Except.ok ((fields.lookup k).getD Json.null)
  | _, _ => Except.error ()

/-- Python `d.get(key, default)` on a JSON value. -/
def Json.pyGetD : Json → String → Json → Except Unit Json
  | Json.obj fields, k, dflt => Except.ok ((fields.lookup k).getD dflt)
  | _, _, _ => Except.error ()

/-- Python subscription `xs[i]` by a non-negative index.  On a non-list
the evaluation eventually raises (directly, or — for a string — at the
next step, when the extracted character is subscripted by a string);
both are collapsed into an error here. -/
def Json.index : Json → Nat → Except Unit Json
  | Json.arr xs, i =>
    match xs[i]? with
    | some v => Except.ok v
    | none => Except.error ()
  | _, _ => Except.error ()

/-- Python truthiness of a JSON value (`None`, `False`, `0`, `""`, `[]`
and `{}` are falsy). -/
def Json.truthy : Json → Bool
  | Json.null => false
  | Json.bool b => b
  | Json.num q => decide (q ≠ 0)
  | Json.str s => decide (s ≠ "")
  | Json.arr [] => false
  | Json.arr (_ :: _) => true
  | Json.obj [] => false
  | Json.obj (_ :: _) => true

/-- The numeric reading of a JSON value, as accepted by shapely's
`Point(x, y)` constructor: numbers, and booleans (Python `bool` is an
`int`).  Anything else makes `Point` raise. -/
def Json.asNum : Json → Option ℚ
  | Json.num q => some q
  | Json.bool b => some (if b then 1 else 0)
  | _ => none

/-- Lift an optional value into the exception monad (a missing value
raises). -/
def optE {α : Type} : Option α → Except Unit α
  | some a => Except.ok a
  | none => Except.error ()

/-- One coordinate pair of a ring: shapely accepts a sequence of at
least two numbers and uses the first two as `(x, y)`. -/
def parseCoord : Json → Option (ℚ × ℚ)
  | Json.arr (x :: y :: _) =>
    match x.asNum, y.asNum with
    | some a, some b => some (a, b)
    | _, _ => none
  | _ => none

/-- The ring argument of shapely's `Polygon(...)`: a sequence of
coordinate tuples, at least three of them (otherwise the `LinearRing`
constructor raises). -/
def parseRing (j : Json) : Except Unit (List (ℚ × ℚ)) :=
  match j with
  | Json.arr pts =>
    match pts.mapM parseCoord with
    | some ring => if 3 ≤ ring.length then Except.ok ring else Except.error ()
    | none => Except.error ()
  | _ => Except.error ()

/-- Abstraction of the shapely planar geometry kernel used by
`point_in_geofence`: `contains p ring` is `Polygon(ring).contains(Point p)`
(true exactly on the interior), `distBoundary p ring` is
`Point(p).distance(Polygon(ring).boundary)` — the minimum planar distance
from the point to the boundary ring, in degrees.  shapely distances are
always non-negative. -/
structure GeoBackend where
  contains : ℚ × ℚ → List (ℚ × ℚ) → Bool
  distBoundary : ℚ × ℚ → List (ℚ × ℚ) → ℚ
  dist_nonneg : ∀ p r, 0 ≤ distBoundary p r

/-- Format dispatch of `point_in_geofence` (lines 64–67): if the
top-level `type` is `"FeatureCollection"`, descend into
`features[0]['geometry']`; otherwise the payload itself is the
geometry. -/
def resolveGeometry (geofence_data : Json) : Except Unit Json := do
  let t ← geofence_data.getKey "type"
  if t.isStr "FeatureCollection" then
    let features ← geofence_data.getKey "features"
    let f0 ← features.index 0
    f0.getKey "geometry"
  else
    pure geofence_data

/-- The `try` block of `point_in_geofence` (lines 59–74).
`Except.error ()` is a raised exception (to be caught by the handler);
`Except.ok none` is the implicit Python `None` when the geometry type is
not `'Polygon'`; `Except.ok (some v)` is `return v`. -/
def pifBody (B : GeoBackend) (latJ lonJ : Json) (geofence_data : Json) :
    Except Unit (Option ℚ) := do
  let lon ← optE lonJ.asNum
  let lat ← optE latJ.asNum
  let geometry ← resolveGeometry geofence_data
  let gt ← geometry.getKey "type"
  if gt.isStr "Polygon" then
    let coords ← geometry.getKey "coordinates"
    let ring0 ← coords.index 0
    let ring ← parseRing ring0
    if B.contains (lon, lat) ring then
      let distance := B.distBoundary (lon, lat) ring * 111000
      pure (some (if distance > 50 then -999 else -distance))
    else
      pure (some (if B.distBoundary (lon, lat) ring * 111000 > 50 then 999
        else B.distBoundary (lon, lat) ring * 111000))
  else
    pure none

/-- `point_in_geofence(lat, lon, geofence_data)` (lines 57–77): the
`try` block above with the catch-all handler that turns any raised
exception into the value `999`.  The result is `none` exactly when the
Python function returns `None`. -/
def point_in_geofence (B : GeoBackend) (latJ lonJ : Json)
    (geofence_data : Json) : Option ℚ :=
  match pifBody B latJ lonJ geofence_data with
  | Except.error _ => some 999
  | Except.ok r => r

/-- One recorded invocation of `send_geofence_alert` by
`process_geofence_event` (line 110): the extracted latitude and
longitude values, the decision value, and the device id, exactly as
passed. -/
structure AlertCall where
  lat : Json
  lon : Json
  distance : ℚ
  deviceId : String

/-- Observable outcome of one `process_geofence_event` call:
whether control reached the boundary-blob download (lines 95–103),
the list of alert invocations, and whether the call raised an
exception to its caller (the function body has no `try`). -/
structure ProcTrace where
  loaderInvoked : Bool
  alerts : List AlertCall
  raised : Bool

/-- Coordinate extraction of `process_geofence_event` (lines 84–90):
`gps_data = event_body.get('gps', event_body)`, then
`lat = gps_data.get('lat') or gps_data.get('latitude')` (Python `or`
keeps the first operand when it is truthy) and similarly for `lon`;
`if None in (lat, lon)` returns early.  `Except.error ()` is a raised
`AttributeError` (`.get` on a non-dict), `Except.ok none` the early
return, `Except.ok (some (lat, lon))` successful extraction.  Python
short-circuits the second `.get`, but once the first `.get` succeeded
`gps_data` is a dict and the second can no longer raise, so sequencing
both is equivalent. -/
def extractCoords (event_body : Json) : Except Unit (Option (Json × Json)) := do
  let gps_data ← event_body.pyGetD "gps" event_body
  let l1 ← gps_data.pyGet "lat"
  let l2 ← gps_data.pyGet "latitude"
  let lat := if l1.truthy then l1 else l2
  let o1 ← gps_data.pyGet "lon"
  let o2 ← gps_data.pyGet "longitude"
  let lon := if o1.truthy then o1 else o2
  if lat.isNull || lon.isNull then
    pure none
  else
    pure (some (lat, lon))

/-- `process_geofence_event(event_body, device_id)` (lines 79–112).
The boundary-blob download and `json.loads` (lines 95–103) are external
I/O, passed in as `boundary` (`Except.error ()` = the download or the
parse raised; the exception propagates, as the function has no `try`).
After evaluation, `if distance <= 0` dispatches the alert; when
`point_in_geofence` returned Python `None` (modelled `none`) the
comparison `None <= 0` raises `TypeError`. -/
def process_geofence_event (B : GeoBackend) (boundary : Except Unit Json)
    (event_body : Json) (device_id : String) : ProcTrace :=
  match extractCoords event_body with
  | Except.error _ => ⟨false, [], true⟩
  | Except.ok none => ⟨false, [], false⟩
  | Except.ok (some (lat, lon)) =>
    match boundary with
    | Except.error _ => ⟨true, [], true⟩
    | Except.ok geofence_data =>
      match point_in_geofence B lat lon geofence_data with
      | none => ⟨true, [], true⟩
      | some distance =>
        if distance ≤ 0 then ⟨true, [⟨lat, lon, distance, device_id⟩], false⟩
        else ⟨true, [], false⟩

/-- Environment of `send_geofence_alert`: the relevant configuration
values from `os.environ` and the outcome of the external
`SendGridAPIClient(...).send(message)` call (`Except.error ()` = the
send raised; `Except.ok n` = it returned a response with status code
`n`). -/
structure AlertEnv where
  sendGridApiKey : Option String
  senderEmail : Option String
  alertRecipientEmail : Option String
  sendgridSend : Except Unit Nat

/-- Observable outcome of one `send_geofence_alert` call: whether an
outbound send was attempted, whether the mock-notification log branch
was taken, and whether a send failure was caught and logged. -/
structure AlertResult where
  sendAttempted : Bool
  mockLogged : Bool
  sendErrorLogged : Bool

/-- `send_geofence_alert(lat, lon, distance, device_id)` (lines
20–45): when `SendGridApiKey` is absent from the environment, log a
mock notification and return without any send attempt; otherwise build
the message and attempt the send inside `try`, logging (not
re-raising) any exception.  The `Except Unit` result records whether
the call raises to its caller: it never does. -/
def send_geofence_alert (env : AlertEnv) (lat lon : Json) (distance : ℚ)
    (device_id : String) : Except Unit AlertResult :=
  if env.sendGridApiKey.isNone then
    Except.ok ⟨false, true, false⟩
  else
    match env.sendgridSend with
    | Except.ok _ => Except.ok ⟨true, false, false⟩
    | Except.error _ => Except.ok ⟨true, false, true⟩

/-- Split a character list at every occurrence of the separator, the
semantics of Python's `str.split('/')` (and of `String.splitOn` for a
one-character separator): `"a//b"` gives `["a", "", "b"]`. -/
def splitOnChar (c : Char) : List Char → List (List Char)
  | [] => [[]]
  | x :: xs =>
    if x = c then [] :: splitOnChar c xs
    else
      match splitOnChar c xs with
      | [] => [[x]]
      | h :: t => (x :: h) :: t

/-- The per-blob step of `list_gps_dates` (lines 165–169): split the
blob name on `'/'`; when there are at least four parts, the date string
is `parts[1] + "-" + parts[2] + "-" + parts[3]`. -/
def dateOfKey (name : String) : Option String :=
  match splitOnChar '/' name.data with
  | _ :: y :: m :: d :: _ =>
    some (String.mk y ++ "-" ++ String.mk m ++ "-" ++ String.mk d)
  | _ => none

/-- Lexicographic strict order on character lists by code point, the
order Python's `sorted` uses on strings (an executable form of the
`<` order on `List Char`). -/
def lexLtB : List Char → List Char → Bool
  | _, [] => false
  | [], _ :: _ => true
  | a :: as, b :: bs =>
    if a < b then true
    else if b < a then false
    else lexLtB as bs

/-- Executable form of `<` on `String`. -/
def strLtB (s t : String) : Bool := lexLtB s.data t.data

/-- Insert a string into an ascending duplicate-free list, keeping it
ascending and duplicate-free. -/
def insertDate (s : String) : List String → List String
  | [] => [s]
  | t :: ts =>
    if s = t then t :: ts
    else if strLtB s t then s :: t :: ts
    else t :: insertDate s ts

/-- The pure core of `list_gps_dates` (lines 157–175) over the listed
blob names: collect `dates` as a set and return `sorted(list(dates))`.
`set` + `sorted` is modelled by inserting each derived date string into
an ascending duplicate-free list; Python's string order and Lean's are
both lexicographic on code points. -/
def list_gps_dates (names : List String) : List String :=
  (names.filterMap dateOfKey).foldl (fun acc s => insertDate s acc) []

/-- A concrete geometry backend for instantiating theorems: everything
is contained, at distance 1 degree from the boundary. -/
def Btriv : GeoBackend where
  contains := fun _ _ => true
  distBoundary := fun _ _ => 1
  dist_nonneg := fun _ _ => by norm_num

def sqRing : Json :=
  Json.arr [Json.arr [Json.num 0, Json.num 0], Json.arr [Json.num 1, Json.num 0],
    Json.arr [Json.num 1, Json.num 1], Json.arr [Json.num 0, Json.num 1]]

def gSquare : Json :=
  Json.obj [("type", Json.str "Polygon"), ("coordinates", Json.arr [sqRing])]

/-- A second concrete backend: nothing is contained, everything at
distance 0 — the shapely behaviour at a point lying on the ring. -/
def Bout : GeoBackend where
  contains := fun _ _ => false
  distBoundary := fun _ _ => 0
  dist_nonneg := fun _ _ => le_refl 0

/-- The parsed form of `sqRing`. -/
def sqRingList : List (ℚ × ℚ) := [(0, 0), (1, 0), (1, 1), (0, 1)]

theorem exceptBind_ok {α β : Type} (a : α) (f : α → Except Unit β) :
    (Except.ok a : Except Unit α) >>= f = f a := rfl

theorem optE_some {α : Type} (a : α) : optE (some a) = Except.ok a := rfl

/-- Evaluation of `point_in_geofence` when the boundary resolves to a
`Polygon` geometry with a well-formed ring and the coordinates are
numeric: the result is the four-way decision of lines 69–74. -/
theorem pif_eval (B : GeoBackend) (latJ lonJ g geom coords ring0 : Json)
    (ring : List (ℚ × ℚ)) (lat lon : ℚ)
    (hlat : latJ.asNum = some lat) (hlon : lonJ.asNum = some lon)
    (hres : resolveGeometry g = Except.ok geom)
    (ht : geom.getKey "type" = Except.ok (Json.str "Polygon"))
    (hc : geom.getKey "coordinates" = Except.ok coords)
    (hi : coords.index 0 = Except.ok ring0)
    (hr : parseRing ring0 = Except.ok ring) :
    point_in_geofence B latJ lonJ g =
      some (if B.contains (lon, lat) ring
        then (if B.distBoundary (lon, lat) ring * 111000 > 50 then -999
          else -(B.distBoundary (lon, lat) ring * 111000))
        else (if B.distBoundary (lon, lat) ring * 111000 > 50 then 999
          else B.distBoundary (lon, lat) ring * 111000)) := by
  simp only [point_in_geofence, pifBody, hlat, hlon, hres, ht, hc, hi, hr,
    optE_some, exceptBind_ok, Json.isStr]
  by_cases hb : B.contains (lon, lat) ring
  · simp [hb, pure, Except.pure]
  · simp [hb, pure, Except.pure]

/-- Evaluation of `point_in_geofence` when the resolved geometry's
`type` is anything other than `'Polygon'` (and nothing raises): the
`try` block falls through without a `return`, so the Python function
returns `None`. -/
theorem pif_nonpolygon (B : GeoBackend) (latJ lonJ g geom t : Json) (lat lon : ℚ)
    (hlat : latJ.asNum = some lat) (hlon : lonJ.asNum = some lon)
    (hres : resolveGeometry g = Except.ok geom)
    (ht : geom.getKey "type" = Except.ok t)
    (hnp : t.isStr "Polygon" = false) :
    point_in_geofence B latJ lonJ g = none := by
  simp only [point_in_geofence, pifBody, hlat, hlon, hres, ht, hnp,
    optE_some, exceptBind_ok]
  simp [pure, Except.pure]

/-- The catch-all handler of lines 75–77: whenever the `try` block
raises, `point_in_geofence` returns `999`. -/
theorem pif_raises (B : GeoBackend) (latJ lonJ g : Json)
    (h : pifBody B latJ lonJ g = Except.error ()) :
    point_in_geofence B latJ lonJ g = some 999 := by
  simp [point_in_geofence, h]

/-- Evaluation of the coordinate extraction of lines 84–90 when
`gps_data` is a dict: the `or`-chain picks the first truthy lookup, and
the event is skipped when either chain result is `None`. -/
theorem extract_eval (event_body gps l1 l2 o1 o2 : Json)
    (hg : event_body.pyGetD "gps" event_body = Except.ok gps)
    (h1 : gps.pyGet "lat" = Except.ok l1) (h2 : gps.pyGet "latitude" = Except.ok l2)
    (h3 : gps.pyGet "lon" = Except.ok o1) (h4 : gps.pyGet "longitude" = Except.ok o2) :
    extractCoords event_body =
      (if ((if l1.truthy then l1 else l2).isNull
            || (if o1.truthy then o1 else o2).isNull)
        then Except.ok none
        else Except.ok (some
          (if l1.truthy then l1 else l2, if o1.truthy then o1 else o2))) := by
  simp only [extractCoords, hg, h1, h2, h3, h4, exceptBind_ok]
  by_cases hn : ((if l1.truthy then l1 else l2).isNull
      || (if o1.truthy then o1 else o2).isNull)
  · simp [hn, pure, Except.pure]
  · simp [hn, pure, Except.pure]

/-- `process_geofence_event` when extraction skips: nothing further
happens (lines 88–90). -/
theorem process_skip (B : GeoBackend) (bd : Except Unit Json)
    (event_body : Json) (dev : String)
    (hx : extractCoords event_body = Except.ok none) :
    process_geofence_event B bd event_body dev = ⟨false, [], false⟩ := by
  simp [process_geofence_event, hx]

/-- `process_geofence_event` when extraction succeeds, the boundary
loads, and evaluation returns a number: lines 106–112 alert exactly
when the decision value is `≤ 0`. -/
theorem process_decision (B : GeoBackend) (gd event_body : Json) (dev : String)
    (lat lon : Json) (d : ℚ)
    (hx : extractCoords event_body = Except.ok (some (lat, lon)))
    (hp : point_in_geofence B lat lon gd = some d) :
    process_geofence_event B (Except.ok gd) event_body dev =
      (if d ≤ 0 then ⟨true, [⟨lat, lon, d, dev⟩], false⟩ else ⟨true, [], false⟩) := by
  simp only [process_geofence_event, hx, hp]

/-- `process_geofence_event` when evaluation returns Python `None`:
the comparison `None <= 0` on line 108 raises `TypeError`, which
propagates (the function has no handler). -/
theorem process_none_raises (B : GeoBackend) (gd event_body : Json) (dev : String)
    (lat lon : Json)
    (hx : extractCoords event_body = Except.ok (some (lat, lon)))
    (hp : point_in_geofence B lat lon gd = none) :
    process_geofence_event B (Except.ok gd) event_body dev = ⟨true, [], true⟩ := by
  simp [process_geofence_event, hx, hp]

/-- The executable lexicographic order on character lists agrees with
the `<` order on `List Char`. -/
theorem lexLtB_iff (a b : List Char) : lexLtB a b = true ↔ a < b := by
  induction a generalizing b with
  | nil =>
    cases b with
    | nil =>
      simp only [lexLtB]
      constructor
      · intro h; cases h
      · intro h; cases h
    | cons y ys =>
      simp only [lexLtB]
      constructor
      · intro _; exact List.Lex.nil
      · intro _; trivial
  | cons x xs ih =>
    cases b with
    | nil =>
      simp only [lexLtB]
      constructor
      · intro h; cases h
      · intro h; cases h
    | cons y ys =>
      simp only [lexLtB]
      by_cases hxy : x < y
      · simp only [hxy, if_pos]
        constructor
        · intro _; exact List.Lex.rel hxy
        · intro _; trivial
      · by_cases hyx : y < x
        · simp only [hxy, hyx, if_neg, if_pos, not_false_iff]
          constructor
          · intro h; cases h
          · intro h
            cases h with
            | rel h => exact absurd h hxy
            | cons _ => exact absurd hyx (lt_irrefl x)
        · have hxyeq : x = y := le_antisymm (not_lt.mp hyx) (not_lt.mp hxy)
          subst hxyeq
          simp only [hxy, hyx, if_neg, not_false_iff]
          rw [ih ys]
          constructor
          · intro h; exact List.Lex.cons h
          · intro h
            cases h with
            | rel h => exact absurd h hxy
            | cons h => exact h

/-- The executable string order agrees with `<` on `String`. -/
theorem strLtB_iff (s t : String) : strLtB s t = true ↔ s < t := by
  rw [String.lt_iff_toList_lt]
  exact lexLtB_iff s.data t.data

/-- Unfolding: inserting an element already present. -/
theorem insertDate_cons_eq (s : String) (ts : List String) :
    insertDate s (s :: ts) = s :: ts := by
  simp [insertDate]

/-- Unfolding: inserting a strictly smaller element. -/
theorem insertDate_cons_lt (s t : String) (ts : List String)
    (h1 : s ≠ t) (h2 : strLtB s t = true) :
    insertDate s (t :: ts) = s :: t :: ts := by
  simp [insertDate, h1, h2]

/-- Unfolding: inserting a strictly larger element. -/
theorem insertDate_cons_gt (s t : String) (ts : List String)
    (h1 : s ≠ t) (h2 : strLtB s t = false) :
    insertDate s (t :: ts) = t :: insertDate s ts := by
  simp [insertDate, h1, h2]

/-- Membership after insertion. -/
theorem insertDate_mem (a s : String) (l : List String) :
    a ∈ insertDate s l ↔ a = s ∨ a ∈ l := by
  induction l with
  | nil => simp [insertDate]
  | cons t ts ih =>
    by_cases hst : s = t
    · subst hst
      rw [insertDate_cons_eq]
      simp only [List.mem_cons]
      tauto
    · by_cases hlt : strLtB s t
      · rw [insertDate_cons_lt s t ts hst hlt]
        simp only [List.mem_cons]
      · rw [insertDate_cons_gt s t ts hst (by simpa using hlt)]
        simp only [List.mem_cons, ih]
        tauto

/-- Insertion preserves strict ascending sortedness. -/
theorem insertDate_sorted (s : String) (l : List String)
    (h : l.Sorted (· < ·)) : (insertDate s l).Sorted (· < ·) := by
  induction l with
  | nil => simp [insertDate]
  | cons t ts ih =>
    rw [List.sorted_cons] at h
    obtain ⟨ht, hts⟩ := h
    by_cases hst : s = t
    · subst hst
      rw [insertDate_cons_eq]
      rw [List.sorted_cons]
      exact ⟨ht, hts⟩
    · by_cases hlt : strLtB s t
      · rw [insertDate_cons_lt s t ts hst hlt]
        rw [List.sorted_cons]
        refine ⟨?_, ?_⟩
        · intro b hb
          rcases List.mem_cons.mp hb with hb | hb
          · subst hb; exact (strLtB_iff s b).mp hlt
          · exact lt_trans ((strLtB_iff s t).mp hlt) (ht b hb)
        · rw [List.sorted_cons]
          exact ⟨ht, hts⟩
      · have hlt' : strLtB s t = false := by simpa using hlt
        have hts' : t < s := by
          rcases lt_trichotomy s t with hc | hc | hc
          · exact absurd ((strLtB_iff s t).mpr hc) (by simp [hlt'])
          · exact absurd hc hst
          · exact hc
        rw [insertDate_cons_gt s t ts hst hlt']
        rw [List.sorted_cons]
        refine ⟨?_, ih hts⟩
        intro b hb
        rcases (insertDate_mem b s ts).mp hb with hb | hb
        · subst hb; exact hts'
        · exact ht b hb

/-- Membership in the insertion fold. -/
theorem foldl_insert_mem (a : String) (l acc : List String) :
    a ∈ l.foldl (fun acc s => insertDate s acc) acc ↔ a ∈ acc ∨ a ∈ l := by
  induction l generalizing acc with
  | nil => simp
  | cons x xs ih =>
    simp only [List.foldl_cons, ih, insertDate_mem, List.mem_cons]
    tauto

/-- Sortedness of the insertion fold. -/
theorem foldl_insert_sorted (l acc : List String) (h : acc.Sorted (· < ·)) :
    (l.foldl (fun acc s => insertDate s acc) acc).Sorted (· < ·) := by
  induction l generalizing acc with
  | nil => exact h
  | cons x xs ih => exact ih _ (insertDate_sorted x acc h)

/-- C1: for every call to `point_in_geofence(lat, lon, boundary)` where
the boundary resolves to a `Polygon` geometry (and the coordinates are
numeric, so geometry construction succeeds), with `d` the planar
distance from the point `(lon, lat)` to the polygon's boundary ring
multiplied by 111000: if the polygon contains the point and `d > 50`
the result is `-999`; if it contains the point and `d ≤ 50` the result
is `-d`; if it does not contain the point and `d > 50` the result is
`+999`; otherwise the result is `d`, which is non-negative. -/
theorem point_in_geofence_polygon_fourway (B : GeoBackend)
    (latJ lonJ g geom coords ring0 : Json) (ring : List (ℚ × ℚ)) (lat lon : ℚ)
    (hlat : latJ.asNum = some lat) (hlon : lonJ.asNum = some lon)
    (hres : resolveGeometry g = Except.ok geom)
    (ht : geom.getKey "type" = Except.ok (Json.str "Polygon"))
    (hc : geom.getKey "coordinates" = Except.ok coords)
    (hi : coords.index 0 = Except.ok ring0)
    (hr : parseRing ring0 = Except.ok ring) :
    (B.contains (lon, lat) ring = true →
      50 < B.distBoundary (lon, lat) ring * 111000 →
      point_in_geofence B latJ lonJ g = some (-999)) ∧
    (B.contains (lon, lat) ring = true →
      B.distBoundary (lon, lat) ring * 111000 ≤ 50 →
      point_in_geofence B latJ lonJ g =
        some (-(B.distBoundary (lon, lat) ring * 111000))) ∧
    (B.contains (lon, lat) ring = false →
      50 < B.distBoundary (lon, lat) ring * 111000 →
      point_in_geofence B latJ lonJ g = some 999) ∧
    (B.contains (lon, lat) ring = false →
      B.distBoundary (lon, lat) ring * 111000 ≤ 50 →
      point_in_geofence B latJ lonJ g =
        some (B.distBoundary (lon, lat) ring * 111000) ∧
      0 ≤ B.distBoundary (lon, lat) ring * 111000) := by
  have h := pif_eval B latJ lonJ g geom coords ring0 ring lat lon
    hlat hlon hres ht hc hi hr
  refine ⟨?_, ?_, ?_, ?_⟩
  · intro hb hd
    rw [h]
    simp [hb, hd]
  · intro hb hd
    rw [h]
    simp [hb, not_lt.mpr hd]
  · intro hb hd
    rw [h]
    simp [hb, hd]
  · intro hb hd
    constructor
    · rw [h]
      simp [hb, not_lt.mpr hd]
    · exact mul_nonneg (B.dist_nonneg _ _) (by norm_num)

theorem point_in_geofence_polygon_fourway_witness :
    point_in_geofence Btriv (Json.num 36) (Json.num 5) gSquare = some (-999) := by
  have h := point_in_geofence_polygon_fourway Btriv (Json.num 36) (Json.num 5)
    gSquare gSquare (Json.arr [sqRing]) sqRing sqRingList 36 5
    rfl rfl rfl rfl rfl rfl rfl
  exact h.1 rfl (by norm_num [Btriv])

/-- C2: for every event that reaches evaluation (coordinates extracted
and boundary loaded), `send_geofence_alert` is invoked exactly once
with the original latitude, longitude and device id if and only if the
decision value returned by `point_in_geofence` is `≤ 0`; a positive
decision value dispatches nothing, and a `None` decision dispatches
nothing either (the comparison raises). -/
theorem process_alert_iff_decision_nonpos (B : GeoBackend)
    (gd event_body : Json) (dev : String) (lat lon : Json)
    (hx : extractCoords event_body = Except.ok (some (lat, lon))) :
    (∀ d : ℚ, point_in_geofence B lat lon gd = some d →
      ((process_geofence_event B (Except.ok gd) event_body dev).alerts =
          [⟨lat, lon, d, dev⟩] ↔ d ≤ 0)) ∧
    (∀ d : ℚ, point_in_geofence B lat lon gd = some d → 0 < d →
      (process_geofence_event B (Except.ok gd) event_body dev).alerts = []) ∧
    (point_in_geofence B lat lon gd = none →
      (process_geofence_event B (Except.ok gd) event_body dev).alerts = []) := by
  refine ⟨?_, ?_, ?_⟩
  · intro d hp
    rw [process_decision B gd event_body dev lat lon d hx hp]
    by_cases hd : d ≤ 0
    · simp [hd]
    · simp [hd]
  · intro d hp hd
    rw [process_decision B gd event_body dev lat lon d hx hp]
    simp [not_le.mpr hd]
  · intro hp
    rw [process_none_raises B gd event_body dev lat lon hx hp]

theorem process_alert_iff_decision_nonpos_witness :
    (process_geofence_event Btriv (Except.ok gSquare)
      (Json.obj [("lat", Json.num 36), ("lon", Json.num 5)]) "dev").alerts =
      [⟨Json.num 36, Json.num 5, -999, "dev"⟩] := by
  have hp : point_in_geofence Btriv (Json.num 36) (Json.num 5) gSquare =
      some (-999) := by
    have h := pif_eval Btriv (Json.num 36) (Json.num 5) gSquare gSquare
      (Json.arr [sqRing]) sqRing sqRingList 36 5 rfl rfl rfl rfl rfl rfl rfl
    rw [h]
    norm_num [Btriv]
  have h2 := process_alert_iff_decision_nonpos Btriv gSquare
    (Json.obj [("lat", Json.num 36), ("lon", Json.num 5)]) "dev"
    (Json.num 36) (Json.num 5) rfl
  exact (h2.1 (-999) hp).mpr (by norm_num)

/-- C3 counterexample: a boundary whose geometry type is `'Point'`
(raising no exception, numeric coordinates).  `point_in_geofence`
returns `None` — not the claimed fallback `+999` — and the caller's
comparison `distance <= 0` then raises, so `process_geofence_event`
ends raised instead of reporting the event as outside. -/
theorem point_in_geofence_nonpolygon_cex :
    point_in_geofence Btriv (Json.num 1) (Json.num 2)
      (Json.obj [("type", Json.str "Point"),
        ("coordinates", Json.arr [Json.num 0, Json.num 0])]) = none ∧
    point_in_geofence Btriv (Json.num 1) (Json.num 2)
      (Json.obj [("type", Json.str "Point"),
        ("coordinates", Json.arr [Json.num 0, Json.num 0])]) ≠ some 999 ∧
    process_geofence_event Btriv
      (Except.ok (Json.obj [("type", Json.str "Point"),
        ("coordinates", Json.arr [Json.num 0, Json.num 0])]))
      (Json.obj [("lat", Json.num 1), ("lon", Json.num 2)]) "dev" =
      ⟨true, [], true⟩ := by
  refine ⟨rfl, ?_, rfl⟩
  intro hcontra
  have h0 : point_in_geofence Btriv (Json.num 1) (Json.num 2)
      (Json.obj [("type", Json.str "Point"),
        ("coordinates", Json.arr [Json.num 0, Json.num 0])]) = none := rfl
  rw [h0] at hcontra
  cases hcontra

/-- C3 amended: for every boundary object whose resolved geometry type
is not `'Polygon'` (and whose structure raises no exception, the
coordinates being numeric), `point_in_geofence` falls off the end of
its `try` block and returns Python `None` — not `+999`.  No exception
escapes `point_in_geofence` itself, but the caller's comparison
`distance <= 0` then raises `TypeError`, so the event is not reported
as outside: processing ends raised, with no alert. -/
theorem point_in_geofence_nonpolygon_returns_none (B : GeoBackend)
    (latJ lonJ g geom t : Json) (lat lon : ℚ)
    (hlat : latJ.asNum = some lat) (hlon : lonJ.asNum = some lon)
    (hres : resolveGeometry g = Except.ok geom)
    (ht : geom.getKey "type" = Except.ok t)
    (hnp : t.isStr "Polygon" = false) :
    point_in_geofence B latJ lonJ g = none ∧
    ∀ event_body dev, extractCoords event_body = Except.ok (some (latJ, lonJ)) →
      process_geofence_event B (Except.ok g) event_body dev = ⟨true, [], true⟩ := by
  have h := pif_nonpolygon B latJ lonJ g geom t lat lon hlat hlon hres ht hnp
  refine ⟨h, ?_⟩
  intro event_body dev hx
  exact process_none_raises B g event_body dev latJ lonJ hx h

theorem point_in_geofence_nonpolygon_returns_none_witness :
    point_in_geofence Btriv (Json.num 3) (Json.num 4)
      (Json.obj [("type", Json.str "LineString"),
        ("coordinates", Json.arr [])]) = none := by
  have h := point_in_geofence_nonpolygon_returns_none Btriv
    (Json.num 3) (Json.num 4)
    (Json.obj [("type", Json.str "LineString"), ("coordinates", Json.arr [])])
    (Json.obj [("type", Json.str "LineString"), ("coordinates", Json.arr [])])
    (Json.str "LineString") 3 4 rfl rfl rfl rfl rfl
  exact h.1

/-- C4 counterexample: the payload `{"lat": 0, "lon": 5}` supplies
numeric values for both coordinates under the `lat`/`lon` keys, yet
the event is rejected before evaluation: Python's `or` discards the
falsy value `0`, the fallback `latitude` lookup yields `None`, and the
`None in (lat, lon)` check drops the event (no boundary fetch, no
alert). -/
theorem extract_rejects_zero_lat_cex :
    (Json.obj [("lat", Json.num 0), ("lon", Json.num 5)]).pyGet "lat" =
      Except.ok (Json.num 0) ∧
    (Json.obj [("lat", Json.num 0), ("lon", Json.num 5)]).pyGet "lon" =
      Except.ok (Json.num 5) ∧
    extractCoords (Json.obj [("lat", Json.num 0), ("lon", Json.num 5)]) =
      Except.ok none ∧
    process_geofence_event Btriv (Except.ok gSquare)
      (Json.obj [("lat", Json.num 0), ("lon", Json.num 5)]) "dev" =
      ⟨false, [], false⟩ :=
  ⟨rfl, rfl, rfl, rfl⟩

/-- C4 amended: for every event payload whose `gps_data` resolves to a
dict, the extracted latitude is the value under `lat` if truthy, else
the value under `latitude` (and similarly for longitude); the event is
rejected if and only if either chain result is `None` — so a numeric
`0` under `lat` with `latitude` absent counts as missing — and the
event proceeds to boundary loading and evaluation (the loader is
reached) exactly when both chain results are non-`None`. -/
theorem extract_or_chain_semantics (B : GeoBackend) (bd : Except Unit Json)
    (dev : String) (event_body gps l1 l2 o1 o2 : Json)
    (hg : event_body.pyGetD "gps" event_body = Except.ok gps)
    (h1 : gps.pyGet "lat" = Except.ok l1) (h2 : gps.pyGet "latitude" = Except.ok l2)
    (h3 : gps.pyGet "lon" = Except.ok o1) (h4 : gps.pyGet "longitude" = Except.ok o2) :
    extractCoords event_body =
      (if ((if l1.truthy then l1 else l2).isNull
            || (if o1.truthy then o1 else o2).isNull)
        then Except.ok none
        else Except.ok (some
          (if l1.truthy then l1 else l2, if o1.truthy then o1 else o2))) ∧
    ((process_geofence_event B bd event_body dev).loaderInvoked = true ↔
      ((if l1.truthy then l1 else l2).isNull
        || (if o1.truthy then o1 else o2).isNull) = false) := by
  have hx := extract_eval event_body gps l1 l2 o1 o2 hg h1 h2 h3 h4
  refine ⟨hx, ?_⟩
  by_cases hn : ((if l1.truthy then l1 else l2).isNull
      || (if o1.truthy then o1 else o2).isNull)
  · rw [if_pos hn] at hx
    rw [process_skip B bd event_body dev hx]
    simp [hn]
  · rw [if_neg hn] at hx
    have hn' : ((if l1.truthy then l1 else l2).isNull
        || (if o1.truthy then o1 else o2).isNull) = false := by simpa using hn
    simp only [hn', iff_true]
    cases bd with
    | error e =>
      cases e
      simp [process_geofence_event, hx]
    | ok gd =>
      simp only [process_geofence_event, hx]
      cases hp : point_in_geofence B (if l1.truthy then l1 else l2)
          (if o1.truthy then o1 else o2) gd with
      | none => rfl
      | some d =>
        by_cases hd : d ≤ 0
        · simp [hd]
        · simp [hd]

theorem extract_or_chain_semantics_witness :
    (process_geofence_event Btriv (Except.ok gSquare)
      (Json.obj [("lat", Json.num 36), ("lon", Json.num 5)]) "dev").loaderInvoked =
      true := by
  have h := extract_or_chain_semantics Btriv (Except.ok gSquare) "dev"
    (Json.obj [("lat", Json.num 36), ("lon", Json.num 5)])
    (Json.obj [("lat", Json.num 36), ("lon", Json.num 5)])
    (Json.num 36) Json.null (Json.num 5) Json.null rfl rfl rfl rfl rfl
  exact h.2.mpr (by norm_num [Json.truthy, Json.isNull])

/-- C5: for every event whose payload is missing all of `lat`,
`latitude`, `lon` and `longitude` (every lookup yields `None`), the
geofence path terminates at the coordinate check: the boundary loader
is never reached — whatever the boundary blob would have produced —
and no alert is dispatched and nothing raises. -/
theorem missing_coords_no_fetch_no_alert (B : GeoBackend)
    (bd : Except Unit Json) (dev : String) (event_body gps : Json)
    (hg : event_body.pyGetD "gps" event_body = Except.ok gps)
    (h1 : gps.pyGet "lat" = Except.ok Json.null)
    (h2 : gps.pyGet "latitude" = Except.ok Json.null)
    (h3 : gps.pyGet "lon" = Except.ok Json.null)
    (h4 : gps.pyGet "longitude" = Except.ok Json.null) :
    process_geofence_event B bd event_body dev = ⟨false, [], false⟩ := by
  have hx := extract_eval event_body gps Json.null Json.null Json.null Json.null
    hg h1 h2 h3 h4
  simp only [Json.truthy, Json.isNull, if_neg, Bool.or_self, if_true,
    Bool.false_eq_true, if_false] at hx
  exact process_skip B bd event_body dev hx

theorem missing_coords_no_fetch_no_alert_witness :
    process_geofence_event Btriv (Except.error ())
      (Json.obj [("speed", Json.num 3)]) "dev" = ⟨false, [], false⟩ :=
  missing_coords_no_fetch_no_alert Btriv (Except.error ()) "dev"
    (Json.obj [("speed", Json.num 3)]) (Json.obj [("speed", Json.num 3)])
    rfl rfl rfl rfl rfl

/-- C6: for every input on which geometry construction or parsing
raises inside `point_in_geofence`'s `try` block, the function returns
the fallback decision value `+999` instead of propagating the
exception (its result type carries no error case), and the caller then
treats the event as outside: no alert, no raised exception. -/
theorem pif_exception_fallback_999 (B : GeoBackend) (latJ lonJ g : Json)
    (h : pifBody B latJ lonJ g = Except.error ()) :
    point_in_geofence B latJ lonJ g = some 999 ∧
    ∀ event_body dev, extractCoords event_body = Except.ok (some (latJ, lonJ)) →
      process_geofence_event B (Except.ok g) event_body dev = ⟨true, [], false⟩ := by
  have h9 := pif_raises B latJ lonJ g h
  refine ⟨h9, ?_⟩
  intro event_body dev hx
  rw [process_decision B g event_body dev latJ lonJ 999 hx h9]
  norm_num

theorem pif_exception_fallback_999_witness :
    point_in_geofence Btriv (Json.num 3) (Json.num 4) (Json.obj []) = some 999 ∧
    process_geofence_event Btriv (Except.ok (Json.obj []))
      (Json.obj [("lat", Json.num 3), ("lon", Json.num 4)]) "dev" =
      ⟨true, [], false⟩ := by
  have h := pif_exception_fallback_999 Btriv (Json.num 3) (Json.num 4)
    (Json.obj []) rfl
  exact ⟨h.1, h.2 (Json.obj [("lat", Json.num 3), ("lon", Json.num 4)]) "dev" rfl⟩

/-- C7: for every boundary object whose top-level type is
`'FeatureCollection'` with at least one feature, evaluation uses only
the geometry of `features[0]`: two collections sharing the same first
feature give identical results, whatever the remaining features (or
the rest of the objects) are. -/
theorem feature_collection_uses_first_feature (B : GeoBackend)
    (latJ lonJ : Json) (g g2 f0 : Json) (fs fs2 : List Json)
    (hg : g.getKey "type" = Except.ok (Json.str "FeatureCollection"))
    (hg2 : g2.getKey "type" = Except.ok (Json.str "FeatureCollection"))
    (hf : g.getKey "features" = Except.ok (Json.arr (f0 :: fs)))
    (hf2 : g2.getKey "features" = Except.ok (Json.arr (f0 :: fs2))) :
    point_in_geofence B latJ lonJ g = point_in_geofence B latJ lonJ g2 := by
  have hres : resolveGeometry g = f0.getKey "geometry" := by
    simp [resolveGeometry, hg, hf, exceptBind_ok, Json.isStr, Json.index]
  have hres2 : resolveGeometry g2 = f0.getKey "geometry" := by
    simp [resolveGeometry, hg2, hf2, exceptBind_ok, Json.isStr, Json.index]
  simp only [point_in_geofence, pifBody, hres, hres2]

theorem feature_collection_uses_first_feature_witness :
    point_in_geofence Btriv (Json.num 36) (Json.num 5)
      (Json.obj [("type", Json.str "FeatureCollection"),
        ("features", Json.arr [Json.obj [("geometry", gSquare)]])]) =
    point_in_geofence Btriv (Json.num 36) (Json.num 5)
      (Json.obj [("type", Json.str "FeatureCollection"),
        ("features", Json.arr [Json.obj [("geometry", gSquare)],
          Json.obj [("geometry", Json.obj [("type", Json.str "Point")])],
          Json.null])]) :=
  feature_collection_uses_first_feature Btriv (Json.num 36) (Json.num 5)
    (Json.obj [("type", Json.str "FeatureCollection"),
      ("features", Json.arr [Json.obj [("geometry", gSquare)]])])
    (Json.obj [("type", Json.str "FeatureCollection"),
      ("features", Json.arr [Json.obj [("geometry", gSquare)],
        Json.obj [("geometry", Json.obj [("type", Json.str "Point")])],
        Json.null])])
    (Json.obj [("geometry", gSquare)]) []
    [Json.obj [("geometry", Json.obj [("type", Json.str "Point")])], Json.null]
    rfl rfl rfl rfl

/-- C8: for every set of stored blob keys, `list_gps_dates` returns
the deduplicated set of date strings derived from the key path
segments (`parts[1]-parts[2]-parts[3]` of keys with at least four
`/`-separated parts), sorted in strictly ascending order; in
particular the keys `a/2024/01/02/...`, `a/2024/01/02/...`,
`b/2024/02/10/...` give `["2024-01-02", "2024-02-10"]`. -/
theorem list_gps_dates_sorted_dedup (names : List String) :
    (list_gps_dates names).Sorted (· < ·) ∧
    (list_gps_dates names).Nodup ∧
    (∀ s, s ∈ list_gps_dates names ↔ ∃ n ∈ names, dateOfKey n = some s) ∧
    list_gps_dates ["a/2024/01/02/120000.json", "a/2024/01/02/130000.json",
      "b/2024/02/10/000000.json"] = ["2024-01-02", "2024-02-10"] := by
  have hs : (list_gps_dates names).Sorted (· < ·) :=
    foldl_insert_sorted (names.filterMap dateOfKey) [] (by simp)
  refine ⟨hs, hs.imp ne_of_lt, ?_, by decide⟩
  intro s
  rw [list_gps_dates, foldl_insert_mem]
  simp [List.mem_filterMap]

/-- C9: `send_geofence_alert` never raises to its caller: its result
is always `Except.ok`; when the `SendGridApiKey` configuration is
absent no outbound send is attempted and the call returns after
logging the mock notification; and when a configured send attempt
fails the exception is caught and logged rather than propagated. -/
theorem send_geofence_alert_never_raises (env : AlertEnv) (lat lon : Json)
    (distance : ℚ) (dev : String) :
    (∃ r, send_geofence_alert env lat lon distance dev = Except.ok r) ∧
    (env.sendGridApiKey = none →
      send_geofence_alert env lat lon distance dev =
        Except.ok ⟨false, true, false⟩) ∧
    (∀ k, env.sendGridApiKey = some k → env.sendgridSend = Except.error () →
      send_geofence_alert env lat lon distance dev =
        Except.ok ⟨true, false, true⟩) := by
  refine ⟨?_, ?_, ?_⟩
  · cases hk : env.sendGridApiKey with
    | none => exact ⟨⟨false, true, false⟩, by simp [send_geofence_alert, hk]⟩
    | some k =>
      cases hsend : env.sendgridSend with
      | ok n =>
        exact ⟨⟨true, false, false⟩, by simp [send_geofence_alert, hk, hsend]⟩
      | error e =>
        exact ⟨⟨true, false, true⟩, by simp [send_geofence_alert, hk, hsend]⟩
  · intro hk
    simp [send_geofence_alert, hk]
  · intro k hk hsend
    simp [send_geofence_alert, hk, hsend]

theorem send_geofence_alert_never_raises_witness :
    send_geofence_alert ⟨none, none, none, Except.ok 202⟩
      (Json.num 36) (Json.num 5) (-999) "dev" =
      Except.ok ⟨false, true, false⟩ :=
  (send_geofence_alert_never_raises ⟨none, none, none, Except.ok 202⟩
    (Json.num 36) (Json.num 5) (-999) "dev").2.1 rfl

/-- C10: for every point on the boundary ring of a valid polygon —
where shapely's `contains` reports not-inside and the distance to the
boundary is `0` — `point_in_geofence` returns decision value exactly
`0` (the outside branch with distance `0`), so the point is
alert-eligible: `send_geofence_alert` is invoked with decision `0`
despite the point not being contained in the polygon's interior. -/
theorem boundary_point_zero_decision_alerts (B : GeoBackend)
    (latJ lonJ g geom coords ring0 : Json) (ring : List (ℚ × ℚ)) (lat lon : ℚ)
    (hlat : latJ.asNum = some lat) (hlon : lonJ.asNum = some lon)
    (hres : resolveGeometry g = Except.ok geom)
    (ht : geom.getKey "type" = Except.ok (Json.str "Polygon"))
    (hc : geom.getKey "coordinates" = Except.ok coords)
    (hi : coords.index 0 = Except.ok ring0)
    (hr : parseRing ring0 = Except.ok ring)
    (hcontains : B.contains (lon, lat) ring = false)
    (hdist : B.distBoundary (lon, lat) ring = 0) :
    point_in_geofence B latJ lonJ g = some 0 ∧
    ∀ event_body dev, extractCoords event_body = Except.ok (some (latJ, lonJ)) →
      (process_geofence_event B (Except.ok g) event_body dev).alerts =
        [⟨latJ, lonJ, 0, dev⟩] := by
  have h := pif_eval B latJ lonJ g geom coords ring0 ring lat lon
    hlat hlon hres ht hc hi hr
  rw [hcontains, hdist] at h
  norm_num at h
  refine ⟨h, ?_⟩
  intro event_body dev hx
  rw [process_decision B g event_body dev latJ lonJ 0 hx h]
  norm_num

theorem boundary_point_zero_decision_alerts_witness :
    point_in_geofence Bout (Json.num 0) (Json.num 0) gSquare = some 0 ∧
    (process_geofence_event Bout (Except.ok gSquare)
      (Json.obj [("lat", Json.num 0), ("latitude", Json.num 0),
        ("lon", Json.num 0), ("longitude", Json.num 0)]) "dev").alerts =
      [⟨Json.num 0, Json.num 0, 0, "dev"⟩] := by
  have h := boundary_point_zero_decision_alerts Bout
    (Json.num 0) (Json.num 0) gSquare gSquare (Json.arr [sqRing]) sqRing
    sqRingList 0 0 rfl rfl rfl rfl rfl rfl rfl rfl rfl
  exact ⟨h.1, h.2 (Json.obj [("lat", Json.num 0), ("latitude", Json.num 0),
    ("lon", Json.num 0), ("longitude", Json.num 0)]) "dev" rfl⟩
